import Mathlib

/-!
Verification of the cargo-mcp command construction and execution pipeline.

The two tool implementations `src/tools/cargo_test.rs` and
`src/tools/cargo_bench.rs` are embedded faithfully: their request structs,
the imperative argv assembly inside `execute`, and the toolchain resolution
expression `self.toolchain.or_else(|| state.get_default_toolchain(None).unwrap_or(None))`.

The collaborators that live outside the sampled sources
(`CargoTools` session state, `create_cargo_command`, `execute_cargo_command`
from `cargo_utils`) are modelled from the spec, as marked on each definition.
Strings stand for Rust `String`/`&str`; the environment map is a list of
key/value pairs (only its emptiness matters to the claims); subprocess
behaviour is an oracle value fed to the executor.
-/

namespace CargoMcp

/-- Report produced by the process executor: success carries the captured
output; failure carries the invocation label and the captured output. -/
inductive Report where
  | success (output : String)
  | failure (label : String) (output : String)
deriving DecidableEq, Repr

/-- Outcome of attempting to spawn the subprocess, supplied by the
environment: either the spawn itself failed, or the process ran to
termination with an exit code and captured output. -/
inductive ProcResult where
  | launchFailure (msg : String)
  | exited (code : Nat) (output : String)
deriving DecidableEq, Repr

/-- Resolved Command: the ephemeral value handed to the process executor —
an optional leading toolchain selector, the ordered argument tokens, and
the environment overlay. -/
structure ResolvedCommand where
  toolchainSelector : Option String
  args : List String
  envOverlay : List (String × String)
deriving DecidableEq, Repr

/-- Modelled from the spec: the session state `CargoTools` (from
`src/state.rs`, not among the sampled sources) holds an optional current
project path and the result of the default-toolchain lookup.  The lookup is
fallible — at its call sites it is used as
`state.get_default_toolchain(None).unwrap_or(None)`, i.e. it returns a
`Result<Option<String>>` — so the field stores that `Result`. -/
structure CargoTools where
  project_path : Option String
  default_toolchain : Except String (Option String)

/-- Modelled from the spec: `CargoTools::ensure_rust_project` — project
resolution fails fatally when no project has been configured for the
session; there is no filesystem auto-discovery fallback. -/
def ensure_rust_project (state : CargoTools) : Except String String :=
  match state.project_path with
  | some p => Except.ok p
  | none => Except.error "No project configured"

/-- Modelled from the spec: `CargoTools::get_default_toolchain` — the
session's stored default-toolchain lookup, which may fail. -/
def get_default_toolchain (state : CargoTools) : Except String (Option String) :=
  state.default_toolchain

/-- The toolchain resolution expression shared by both tools:
`self.toolchain.or_else(|| state.get_default_toolchain(None).unwrap_or(None))`. -/
def resolvedToolchain (explicit : Option String)
    (lookup : Except String (Option String)) : Option String :=
  match explicit with
  | some t => some t
  | none =>
    match lookup with
    | Except.ok v => v
    | Except.error _ => none

/-- Modelled from the spec: `create_cargo_command` from
`src/tools/cargo_utils.rs` — a toolchain selector, if resolved, is injected
as a distinct leading modifier (the `+toolchain` convention); the argv is
passed through; the environment overlay is the request's map, or empty when
the request carried none. -/
def create_cargo_command (args : List String) (toolchain : Option String)
    (cargo_env : Option (List (String × String))) : ResolvedCommand :=
  { toolchainSelector := toolchain.map (fun t => "+" ++ t)
    args := args
    envOverlay := cargo_env.getD [] }

/-- Modelled from the spec: `execute_cargo_command` from
`src/tools/cargo_utils.rs` — failure to launch is a distinct error class;
otherwise success is determined by the exit status alone: zero exit gives a
success report with the captured output, non-zero exit gives a failure
report with the captured output, labeled with the invocation's label. -/
def execute_cargo_command (_cmd : ResolvedCommand) (_project_path : String)
    (label : String) (proc : ProcResult) : Except String Report :=
  match proc with
  | ProcResult.launchFailure msg => Except.error msg
  | ProcResult.exited 0 output => Except.ok (Report.success output)
  | ProcResult.exited (_ + 1) output => Except.ok (Report.failure label output)

/-- Request struct of the `cargo_test` tool (`src/tools/cargo_test.rs`). -/
structure CargoTest where
  package : Option String
  test_name : Option String
  no_capture : Option Bool
  quiet : Option Bool
  toolchain : Option String
  cargo_env : Option (List (String × String))
deriving Repr

/-- The argv assembly of `CargoTest::execute` (lines 108–125), mirroring
the imperative pushes on `args`. -/
def CargoTest.buildArgs (self : CargoTest) : List String :=
  let args := ["test"]
  let args := if self.quiet.getD false then args ++ ["--quiet"] else args
  let args :=
    match self.package with
    | some package => args ++ ["--package", package]
    | none => args
  let args :=
    match self.test_name with
    | some test_name => args ++ [test_name]
    | none => args
  let args :=
    if self.no_capture.getD false then args ++ ["--", "--nocapture"] else args
  args

/-- `CargoTest::execute` up to the call of `execute_cargo_command`: project
resolution, toolchain resolution and command construction. -/
def CargoTest.resolveCommand (self : CargoTest) (state : CargoTools) :
    Except String (ResolvedCommand × String) :=
  match ensure_rust_project state with
  | Except.error e => Except.error e
  | Except.ok project_path =>
    let toolchain := resolvedToolchain self.toolchain (get_default_toolchain state)
    Except.ok (create_cargo_command self.buildArgs toolchain self.cargo_env, project_path)

/-- `CargoTest::execute` (lines 100–129).  The session state is threaded
explicitly; the subprocess outcome is the oracle `proc`. -/
def CargoTest.execute (self : CargoTest) (state : CargoTools) (proc : ProcResult) :
    Except String Report × CargoTools :=
  match self.resolveCommand state with
  | Except.error e => (Except.error e, state)
  | Except.ok (cmd, project_path) =>
    (execute_cargo_command cmd project_path "cargo test" proc, state)

/-- Request struct of the `cargo_bench` tool (`src/tools/cargo_bench.rs`). -/
structure CargoBench where
  package : Option String
  bench_name : Option String
  baseline : Option String
  quiet : Option Bool
  toolchain : Option String
  cargo_env : Option (List (String × String))
deriving Repr

/-- The argv assembly of `CargoBench::execute` (lines 118–134). -/
def CargoBench.buildArgs (self : CargoBench) : List String :=
  let args := ["bench"]
  let args := if self.quiet.getD false then args ++ ["--quiet"] else args
  let args :=
    match self.package with
    | some package => args ++ ["--package", package]
    | none => args
  let args :=
    match self.bench_name with
    | some bench_name => args ++ [bench_name]
    | none => args
  let args :=
    match self.baseline with
    | some baseline => args ++ ["--", "--save-baseline", baseline]
    | none => args
  args

/-- `CargoBench::execute` up to the call of `execute_cargo_command`. -/
def CargoBench.resolveCommand (self : CargoBench) (state : CargoTools) :
    Except String (ResolvedCommand × String) :=
  match ensure_rust_project state with
  | Except.error e => Except.error e
  | Except.ok project_path =>
    let toolchain := resolvedToolchain self.toolchain (get_default_toolchain state)
    Except.ok (create_cargo_command self.buildArgs toolchain self.cargo_env, project_path)

/-- `CargoBench::execute` (lines 110–138). -/
def CargoBench.execute (self : CargoBench) (state : CargoTools) (proc : ProcResult) :
    Except String Report × CargoTools :=
  match self.resolveCommand state with
  | Except.error e => (Except.error e, state)
  | Except.ok (cmd, project_path) =>
    (execute_cargo_command cmd project_path "cargo bench" proc, state)

/-- Segment decomposition of the test argv: the imperative assembly equals
the concatenation of the five segments in declaration order. -/
theorem testBuildArgs_eq (r : CargoTest) :
    r.buildArgs = ["test"]
      ++ (if r.quiet.getD false then ["--quiet"] else [])
      ++ (match r.package with | some p => ["--package", p] | none => [])
      ++ (match r.test_name with | some t => [t] | none => [])
      ++ (if r.no_capture.getD false then ["--", "--nocapture"] else []) := by
  cases hq : r.quiet.getD false <;> cases hp : r.package <;>
    cases ht : r.test_name <;> cases hn : r.no_capture.getD false <;>
    simp [CargoTest.buildArgs, hq, hp, ht, hn]

/-- Segment decomposition of the bench argv. -/
theorem benchBuildArgs_eq (r : CargoBench) :
    r.buildArgs = ["bench"]
      ++ (if r.quiet.getD false then ["--quiet"] else [])
      ++ (match r.package with | some p => ["--package", p] | none => [])
      ++ (match r.bench_name with | some b => [b] | none => [])
      ++ (match r.baseline with | some b => ["--", "--save-baseline", b] | none => []) := by
  cases hq : r.quiet.getD false <;> cases hp : r.package <;>
    cases hb : r.bench_name <;> cases hl : r.baseline <;>
    simp [CargoBench.buildArgs, hq, hp, hb, hl]

/-- C1: for the request in which every optional field is absent (for either
tool), the built argv is exactly `["test"]` resp. `["bench"]` and the
environment overlay of the resolved command is empty. -/
theorem empty_request_builds_bare_subcommand :
    (CargoTest.buildArgs ⟨none, none, none, none, none, none⟩ = ["test"]) ∧
    (CargoBench.buildArgs ⟨none, none, none, none, none, none⟩ = ["bench"]) ∧
    (∀ (s : CargoTools) (p : String), s.project_path = some p →
      (CargoTest.resolveCommand ⟨none, none, none, none, none, none⟩ s).map
          (fun x => (x.1.args, x.1.envOverlay, x.2)) =
        Except.ok (["test"], [], p)) ∧
    (∀ (s : CargoTools) (p : String), s.project_path = some p →
      (CargoBench.resolveCommand ⟨none, none, none, none, none, none⟩ s).map
          (fun x => (x.1.args, x.1.envOverlay, x.2)) =
        Except.ok (["bench"], [], p)) := by
  refine ⟨rfl, rfl, ?_, ?_⟩ <;>
    · intro s p h
      simp [CargoTest.resolveCommand, CargoBench.resolveCommand, ensure_rust_project, h,
        create_cargo_command, CargoTest.buildArgs, CargoBench.buildArgs, Except.map]

/-- Witness for C1 at a concrete session. -/
theorem empty_request_builds_bare_subcommand_witness :
    (CargoTest.resolveCommand ⟨none, none, none, none, none, none⟩
        ⟨some "/proj", Except.ok none⟩).map
      (fun x => (x.1.args, x.1.envOverlay, x.2)) = Except.ok (["test"], [], "/proj") :=
  empty_request_builds_bare_subcommand.2.2.1 ⟨some "/proj", Except.ok none⟩ "/proj" rfl

/-- C2: with no project configured in the session, every tool invocation
fails with the configuration error; no command is built (`resolveCommand`
already errors) and the outcome does not depend on any subprocess
behaviour. -/
theorem no_project_fails_before_subprocess :
    ∀ (s : CargoTools), s.project_path = none →
      (∀ (r : CargoTest) (proc : ProcResult),
        r.resolveCommand s = Except.error "No project configured" ∧
        r.execute s proc = (Except.error "No project configured", s)) ∧
      (∀ (r : CargoBench) (proc : ProcResult),
        r.resolveCommand s = Except.error "No project configured" ∧
        r.execute s proc = (Except.error "No project configured", s)) := by
  intro s h
  constructor <;>
    · intro r proc
      have hr : r.resolveCommand s = Except.error "No project configured" := by
        simp [CargoTest.resolveCommand, CargoBench.resolveCommand, ensure_rust_project, h]
      exact ⟨hr, by simp [CargoTest.execute, CargoBench.execute, hr]⟩

/-- Witness for C2 at a concrete unconfigured session. -/
theorem no_project_fails_before_subprocess_witness :
    CargoTest.execute ⟨none, none, none, none, none, none⟩ ⟨none, Except.ok none⟩
        (ProcResult.exited 0 "ok") =
      (Except.error "No project configured", ⟨none, Except.ok none⟩) :=
  ((no_project_fails_before_subprocess ⟨none, Except.ok none⟩ rfl).1
    ⟨none, none, none, none, none, none⟩ (ProcResult.exited 0 "ok")).2

/-- C8: tool invocations only read the session: after `execute` returns,
the session state (project path and default toolchain) is unchanged. -/
theorem execute_preserves_session :
    ∀ (s : CargoTools) (proc : ProcResult) (rt : CargoTest) (rb : CargoBench),
      (rt.execute s proc).2 = s ∧ (rb.execute s proc).2 = s := by
  intro s proc rt rb
  constructor
  · cases h : rt.resolveCommand s <;> simp [CargoTest.execute, h]
  · cases h : rb.resolveCommand s <;> simp [CargoBench.execute, h]

/-- C3: the toolchain of the built command follows the precedence: the
request's explicit `toolchain` field if present; otherwise the session's
stored default if present; otherwise none (no selector on the command). -/
theorem toolchain_resolution_precedence :
    ∀ (s : CargoTools) (p : String), s.project_path = some p →
      (∀ (r : CargoTest),
        (∀ t, r.toolchain = some t →
          (r.resolveCommand s).map (fun x => x.1.toolchainSelector) =
            Except.ok (some ("+" ++ t))) ∧
        (∀ d, r.toolchain = none → s.default_toolchain = Except.ok (some d) →
          (r.resolveCommand s).map (fun x => x.1.toolchainSelector) =
            Except.ok (some ("+" ++ d))) ∧
        (r.toolchain = none → s.default_toolchain = Except.ok none →
          (r.resolveCommand s).map (fun x => x.1.toolchainSelector) =
            Except.ok none)) ∧
      (∀ (r : CargoBench),
        (∀ t, r.toolchain = some t →
          (r.resolveCommand s).map (fun x => x.1.toolchainSelector) =
            Except.ok (some ("+" ++ t))) ∧
        (∀ d, r.toolchain = none → s.default_toolchain = Except.ok (some d) →
          (r.resolveCommand s).map (fun x => x.1.toolchainSelector) =
            Except.ok (some ("+" ++ d))) ∧
        (r.toolchain = none → s.default_toolchain = Except.ok none →
          (r.resolveCommand s).map (fun x => x.1.toolchainSelector) =
            Except.ok none)) := by
  intro s p hp
  constructor <;>
    · intro r
      refine ⟨?_, ?_, ?_⟩
      · intro t ht
        simp [CargoTest.resolveCommand, CargoBench.resolveCommand, ensure_rust_project, hp,
          get_default_toolchain, resolvedToolchain, ht, create_cargo_command, Except.map]
      · intro d ht hd
        simp [CargoTest.resolveCommand, CargoBench.resolveCommand, ensure_rust_project, hp,
          get_default_toolchain, resolvedToolchain, ht, hd, create_cargo_command, Except.map]
      · intro ht hd
        simp [CargoTest.resolveCommand, CargoBench.resolveCommand, ensure_rust_project, hp,
          get_default_toolchain, resolvedToolchain, ht, hd, create_cargo_command, Except.map]

/-- Witness for C3: explicit toolchain wins over a stored default. -/
theorem toolchain_resolution_precedence_witness :
    (CargoTest.resolveCommand ⟨none, none, none, none, some "nightly", none⟩
        ⟨some "/proj", Except.ok (some "stable")⟩).map
      (fun x => x.1.toolchainSelector) = Except.ok (some ("+" ++ "nightly")) :=
  ((toolchain_resolution_precedence ⟨some "/proj", Except.ok (some "stable")⟩ "/proj" rfl).1
    ⟨none, none, none, none, some "nightly", none⟩).1 "nightly" rfl

/-- C9: for a subprocess that ran to termination, the classification depends
only on the exit status: zero exit yields a success report with the captured
output, non-zero exit yields a failure report with the captured output and
the invocation's label ("cargo test" / "cargo bench"), regardless of the
output text. -/
theorem exit_status_classification :
    ∀ (cmd : ResolvedCommand) (path label out : String) (c : Nat),
      (execute_cargo_command cmd path label (ProcResult.exited 0 out) =
        Except.ok (Report.success out)) ∧
      (c ≠ 0 → execute_cargo_command cmd path label (ProcResult.exited c out) =
        Except.ok (Report.failure label out)) ∧
      (∀ (s : CargoTools) (p : String), s.project_path = some p →
        (∀ (r : CargoTest),
          (r.execute s (ProcResult.exited 0 out)).1 = Except.ok (Report.success out) ∧
          (c ≠ 0 → (r.execute s (ProcResult.exited c out)).1 =
            Except.ok (Report.failure "cargo test" out))) ∧
        (∀ (r : CargoBench),
          (r.execute s (ProcResult.exited 0 out)).1 = Except.ok (Report.success out) ∧
          (c ≠ 0 → (r.execute s (ProcResult.exited c out)).1 =
            Except.ok (Report.failure "cargo bench" out)))) := by
  intro cmd path label out c
  refine ⟨rfl, ?_, ?_⟩
  · intro hc
    cases c with
    | zero => exact absurd rfl hc
    | succ n => rfl
  · intro s p hp
    constructor
    · intro r
      have hr : r.resolveCommand s = Except.ok
          (create_cargo_command r.buildArgs
            (resolvedToolchain r.toolchain (get_default_toolchain s)) r.cargo_env, p) := by
        simp [CargoTest.resolveCommand, ensure_rust_project, hp]
      refine ⟨by simp [CargoTest.execute, hr, execute_cargo_command], ?_⟩
      intro hc
      cases c with
      | zero => exact absurd rfl hc
      | succ n => simp [CargoTest.execute, hr, execute_cargo_command]
    · intro r
      have hr : r.resolveCommand s = Except.ok
          (create_cargo_command r.buildArgs
            (resolvedToolchain r.toolchain (get_default_toolchain s)) r.cargo_env, p) := by
        simp [CargoBench.resolveCommand, ensure_rust_project, hp]
      refine ⟨by simp [CargoBench.execute, hr, execute_cargo_command], ?_⟩
      intro hc
      cases c with
      | zero => exact absurd rfl hc
      | succ n => simp [CargoBench.execute, hr, execute_cargo_command]

/-- Witness for C9: a non-zero exit on a configured session yields the
labeled failure report, even with an empty request and captured output
containing the word "error". -/
theorem exit_status_classification_witness :
    (CargoTest.execute ⟨none, none, none, none, none, none⟩
        ⟨some "/proj", Except.ok none⟩ (ProcResult.exited 101 "error: oops")).1 =
      Except.ok (Report.failure "cargo test" "error: oops") :=
  ((((exit_status_classification ⟨none, ["test"], []⟩ "/proj" "cargo test" "error: oops"
      101).2.2 ⟨some "/proj", Except.ok none⟩ "/proj" rfl).1
    ⟨none, none, none, none, none, none⟩).2 (by decide))

/-- C10: when the request carries no explicit toolchain and the session's
default-toolchain lookup returns an error, the tool treats this as "no
default toolchain": the command is built with no toolchain selector and
execution proceeds, instead of propagating the lookup error. -/
theorem default_toolchain_lookup_error_ignored :
    ∀ (e : String) (s : CargoTools) (p : String),
      s.project_path = some p → s.default_toolchain = Except.error e →
      (∀ (r : CargoTest), r.toolchain = none →
        (r.resolveCommand s).map (fun x => x.1.toolchainSelector) = Except.ok none ∧
        ∀ proc, (r.execute s proc).1 =
          execute_cargo_command (create_cargo_command r.buildArgs none r.cargo_env) p
            "cargo test" proc) ∧
      (∀ (r : CargoBench), r.toolchain = none →
        (r.resolveCommand s).map (fun x => x.1.toolchainSelector) = Except.ok none ∧
        ∀ proc, (r.execute s proc).1 =
          execute_cargo_command (create_cargo_command r.buildArgs none r.cargo_env) p
            "cargo bench" proc) := by
  intro e s p hp he
  constructor
  · intro r ht
    have hr : r.resolveCommand s = Except.ok
        (create_cargo_command r.buildArgs none r.cargo_env, p) := by
      simp [CargoTest.resolveCommand, ensure_rust_project, hp, get_default_toolchain,
        resolvedToolchain, ht, he]
    exact ⟨by simp [hr, create_cargo_command, Except.map],
      fun proc => by simp [CargoTest.execute, hr]⟩
  · intro r ht
    have hr : r.resolveCommand s = Except.ok
        (create_cargo_command r.buildArgs none r.cargo_env, p) := by
      simp [CargoBench.resolveCommand, ensure_rust_project, hp, get_default_toolchain,
        resolvedToolchain, ht, he]
    exact ⟨by simp [hr, create_cargo_command, Except.map],
      fun proc => by simp [CargoBench.execute, hr]⟩

/-- Witness for C10 at a concrete session whose lookup errors. -/
theorem default_toolchain_lookup_error_ignored_witness :
    (CargoTest.resolveCommand ⟨none, none, none, none, none, none⟩
        ⟨some "/proj", Except.error "session file corrupt"⟩).map
      (fun x => x.1.toolchainSelector) = Except.ok none :=
  ((default_toolchain_lookup_error_ignored "session file corrupt"
      ⟨some "/proj", Except.error "session file corrupt"⟩ "/proj" rfl rfl).1
    ⟨none, none, none, none, none, none⟩ rfl).1

/-- C4: with the compact-output field set to true, exactly one `--quiet`
token is inserted immediately after the subcommand token (the rest of the
argv is the same as for the request with the field cleared); with the field
absent or false, no token is emitted (the argv equals that of the request
with the field cleared). -/
theorem quiet_flag_single_insertion :
    (∀ (r : CargoTest),
      (r.quiet = some true → ∃ rest, r.buildArgs = "test" :: "--quiet" :: rest ∧
        CargoTest.buildArgs {r with quiet := none} = "test" :: rest) ∧
      (r.quiet = some false ∨ r.quiet = none →
        r.buildArgs = CargoTest.buildArgs {r with quiet := none})) ∧
    (∀ (r : CargoBench),
      (r.quiet = some true → ∃ rest, r.buildArgs = "bench" :: "--quiet" :: rest ∧
        CargoBench.buildArgs {r with quiet := none} = "bench" :: rest) ∧
      (r.quiet = some false ∨ r.quiet = none →
        r.buildArgs = CargoBench.buildArgs {r with quiet := none})) := by
  constructor
  · intro r
    constructor
    · intro hq
      refine ⟨(match r.package with | some p => ["--package", p] | none => [])
          ++ (match r.test_name with | some t => [t] | none => [])
          ++ (if r.no_capture.getD false then ["--", "--nocapture"] else []), ?_, ?_⟩
      · rw [testBuildArgs_eq]
        simp [hq]
      · rw [testBuildArgs_eq]
        simp
    · intro hq
      rw [testBuildArgs_eq, testBuildArgs_eq]
      rcases hq with hq | hq <;> simp [hq]
  · intro r
    constructor
    · intro hq
      refine ⟨(match r.package with | some p => ["--package", p] | none => [])
          ++ (match r.bench_name with | some b => [b] | none => [])
          ++ (match r.baseline with | some b => ["--", "--save-baseline", b] | none => []), ?_, ?_⟩
      · rw [benchBuildArgs_eq]
        simp [hq]
      · rw [benchBuildArgs_eq]
        simp
    · intro hq
      rw [benchBuildArgs_eq, benchBuildArgs_eq]
      rcases hq with hq | hq <;> simp [hq]

/-- Witness for C4 at a concrete request with quiet set. -/
theorem quiet_flag_single_insertion_witness :
    ∃ rest, CargoTest.buildArgs ⟨some "my-lib", none, none, some true, none, none⟩ =
        "test" :: "--quiet" :: rest ∧
      CargoTest.buildArgs ⟨some "my-lib", none, none, none, none, none⟩ =
        "test" :: rest :=
  (quiet_flag_single_insertion.1 ⟨some "my-lib", none, none, some true, none, none⟩).1 rfl

/-- C5: a present package name contributes the two-token pair
`["--package", name]`, placed after the compact-output flag (if any) and
before the name filter (if any). -/
theorem package_pair_position :
    (∀ (r : CargoTest) (p : String), r.package = some p →
      r.buildArgs = ["test"] ++ (if r.quiet.getD false then ["--quiet"] else [])
        ++ ["--package", p]
        ++ (match r.test_name with | some t => [t] | none => [])
        ++ (if r.no_capture.getD false then ["--", "--nocapture"] else [])) ∧
    (∀ (r : CargoBench) (p : String), r.package = some p →
      r.buildArgs = ["bench"] ++ (if r.quiet.getD false then ["--quiet"] else [])
        ++ ["--package", p]
        ++ (match r.bench_name with | some b => [b] | none => [])
        ++ (match r.baseline with | some b => ["--", "--save-baseline", b] | none => [])) := by
  constructor
  · intro r p hp
    rw [testBuildArgs_eq, hp]
  · intro r p hp
    rw [benchBuildArgs_eq, hp]

/-- Witness for C5 at a concrete request. -/
theorem package_pair_position_witness :
    CargoTest.buildArgs ⟨some "my-lib", some "t1", none, some true, none, none⟩ =
      ["test", "--quiet", "--package", "my-lib", "t1"] := by
  simpa using package_pair_position.1
    ⟨some "my-lib", some "t1", none, some true, none, none⟩ "my-lib" rfl

/-- C7: the argv always lists the segments in the fixed order — subcommand,
compact-output flag, package pair, name-filter positional, double-dash
pass-through group — and the three example requests of the spec produce
exactly the argvs it states. -/
theorem argv_fixed_order_and_examples :
    (∀ (r : CargoTest), r.buildArgs = ["test"]
      ++ (if r.quiet.getD false then ["--quiet"] else [])
      ++ (match r.package with | some p => ["--package", p] | none => [])
      ++ (match r.test_name with | some t => [t] | none => [])
      ++ (if r.no_capture.getD false then ["--", "--nocapture"] else [])) ∧
    (∀ (r : CargoBench), r.buildArgs = ["bench"]
      ++ (if r.quiet.getD false then ["--quiet"] else [])
      ++ (match r.package with | some p => ["--package", p] | none => [])
      ++ (match r.bench_name with | some b => [b] | none => [])
      ++ (match r.baseline with | some b => ["--", "--save-baseline", b] | none => [])) ∧
    CargoTest.buildArgs ⟨some "my-lib", none, none, some true, none, none⟩ =
      ["test", "--quiet", "--package", "my-lib"] ∧
    CargoTest.buildArgs ⟨none, some "test_addition", some true, none, none, none⟩ =
      ["test", "test_addition", "--", "--nocapture"] ∧
    CargoBench.buildArgs ⟨none, some "my_benchmark", some "main", none, none, none⟩ =
      ["bench", "my_benchmark", "--", "--save-baseline", "main"] :=
  ⟨testBuildArgs_eq, benchBuildArgs_eq, rfl, rfl, rfl⟩

/-- C6 counterexample: for the request `{test_name: "--", no_capture: true}`
the built argv is `["test", "--", "--", "--nocapture"]`, which contains the
`"--"` token twice — not exactly once as the claim states. -/
theorem separator_duplicated_on_dashdash_filter :
    (CargoTest.buildArgs ⟨none, some "--", some true, none, none, none⟩).count "--" = 2 ∧
    ¬ (CargoTest.buildArgs ⟨none, some "--", some true, none, none, none⟩).count "--" = 1 := by
  decide

/-- C6 (amended): for every request that supplies a harness pass-through
flag and in which no other supplied string field is itself the literal
`"--"`, the built argv contains exactly one `"--"` token, placed
immediately before the pass-through tokens. -/
theorem single_separator_before_passthrough :
    (∀ (r : CargoTest), r.no_capture = some true →
      r.package ≠ some "--" → r.test_name ≠ some "--" →
      r.buildArgs.count "--" = 1 ∧
      ∃ pre, r.buildArgs = pre ++ ["--", "--nocapture"] ∧ "--" ∉ pre) ∧
    (∀ (r : CargoBench) (b : String), r.baseline = some b → b ≠ "--" →
      r.package ≠ some "--" → r.bench_name ≠ some "--" →
      r.buildArgs.count "--" = 1 ∧
      ∃ pre, r.buildArgs = pre ++ ["--", "--save-baseline", b] ∧ "--" ∉ pre) := by
  constructor
  · intro r hnc hp ht
    have hpre : r.buildArgs =
        (["test"] ++ (if r.quiet.getD false then ["--quiet"] else [])
          ++ (match r.package with | some p => ["--package", p] | none => [])
          ++ (match r.test_name with | some t => [t] | none => []))
        ++ ["--", "--nocapture"] := by
      rw [testBuildArgs_eq, hnc]
      simp
    have hp2 : "--" ∉ (match r.package with | some p => ["--package", p] | none => []) := by
      rcases hpk : r.package with _ | p
      · simp
      · rw [hpk] at hp
        have hne : p ≠ "--" := fun h => hp (by rw [h])
        simp [Ne.symm hne]
    have ht2 : "--" ∉ (match r.test_name with | some t => [t] | none => []) := by
      rcases htn : r.test_name with _ | t
      · simp
      · rw [htn] at ht
        have hne : t ≠ "--" := fun h => ht (by rw [h])
        simp [Ne.symm hne]
    have hmem : "--" ∉ (["test"] ++ (if r.quiet.getD false then ["--quiet"] else [])
        ++ (match r.package with | some p => ["--package", p] | none => [])
        ++ (match r.test_name with | some t => [t] | none => [])) := by
      intro hm
      rcases List.mem_append.mp hm with hm | hm
      · rcases List.mem_append.mp hm with hm | hm
        · rcases List.mem_append.mp hm with hm | hm
          · simp at hm
          · cases hq : r.quiet.getD false <;> rw [hq] at hm <;> simp at hm
        · exact hp2 hm
      · exact ht2 hm
    refine ⟨?_, ⟨_, hpre, hmem⟩⟩
    rw [hpre, List.count_append, List.count_eq_zero.mpr hmem]
    decide
  · intro r b hb hbne hp hn
    have hpre : r.buildArgs =
        (["bench"] ++ (if r.quiet.getD false then ["--quiet"] else [])
          ++ (match r.package with | some p => ["--package", p] | none => [])
          ++ (match r.bench_name with | some n => [n] | none => []))
        ++ ["--", "--save-baseline", b] := by
      rw [benchBuildArgs_eq, hb]
    have hp2 : "--" ∉ (match r.package with | some p => ["--package", p] | none => []) := by
      rcases hpk : r.package with _ | p
      · simp
      · rw [hpk] at hp
        have hne : p ≠ "--" := fun h => hp (by rw [h])
        simp [Ne.symm hne]
    have hn2 : "--" ∉ (match r.bench_name with | some n => [n] | none => []) := by
      rcases hbn : r.bench_name with _ | n
      · simp
      · rw [hbn] at hn
        have hne : n ≠ "--" := fun h => hn (by rw [h])
        simp [Ne.symm hne]
    have hmem : "--" ∉ (["bench"] ++ (if r.quiet.getD false then ["--quiet"] else [])
        ++ (match r.package with | some p => ["--package", p] | none => [])
        ++ (match r.bench_name with | some n => [n] | none => [])) := by
      intro hm
      rcases List.mem_append.mp hm with hm | hm
      · rcases List.mem_append.mp hm with hm | hm
        · rcases List.mem_append.mp hm with hm | hm
          · simp at hm
          · cases hq : r.quiet.getD false <;> rw [hq] at hm <;> simp at hm
        · exact hp2 hm
      · exact hn2 hm
    refine ⟨?_, ⟨_, hpre, hmem⟩⟩
    rw [hpre, List.count_append, List.count_eq_zero.mpr hmem]
    simp [List.count_cons, hbne]

/-- Witness for the amended C6 at a concrete request with a name filter. -/
theorem single_separator_before_passthrough_witness :
    (CargoTest.buildArgs ⟨none, some "mytest", some true, none, none, none⟩).count "--" = 1 ∧
    ∃ pre, CargoTest.buildArgs ⟨none, some "mytest", some true, none, none, none⟩ =
      pre ++ ["--", "--nocapture"] ∧ "--" ∉ pre :=
  single_separator_before_passthrough.1 ⟨none, some "mytest", some true, none, none, none⟩
    rfl (by decide) (by decide)

end CargoMcp
